import Mathlib

/-!
Verification of the `TapInterface` component
(src/rdkPlugins/Networking/source/TapInterface.cpp).

The class owns a single file descriptor `mFd` for the kernel TAP control
device. We embed each member function as an explicit state transformer on
the field `mFd`. System-call outcomes (the results of `open`, `ioctl` and
`close`) are supplied by an environment record `OSEnv`, and every system
call made by an operation is recorded in an `OSCall` trace so that claims
about which descriptors are opened and closed are statable. The external
`Netlink` collaborator is embedded as a record of result functions, and
each delegated call is recorded in a `NetlinkCall` trace.
-/

namespace TapInterface

/-- The fixed interface name: `#define TAP_NAME "dobby_tap0"`. -/
def TAP_NAME : String := "dobby_tap0"

/-- The mutable state of a `TapInterface` object: its only data member,
the file descriptor `mFd`. -/
structure TapState where
  mFd : Int
deriving DecidableEq, Repr

/-- Outcomes of the OS calls an operation may perform: the descriptor
returned by `open("/dev/net/tun", ...)`, the return value of
`ioctl(fd, TUNSETIFF, ...)`, and the return value of `close(fd)`. -/
structure OSEnv where
  openResult : Int
  ioctlResult : Int
  closeResult : Int
deriving DecidableEq, Repr

/-- A record of one OS call performed by an operation, with its result. -/
inductive OSCall where
  | openTun (result : Int)
  | ioctlTunSetIff (fd : Int) (requestedName : String) (result : Int)
  | closeFd (fd : Int) (result : Int)
deriving DecidableEq, Repr

/-- A six-byte hardware address, as in `std::array<uint8_t, 6>`. -/
def MacAddress : Type := { l : List Nat // l.length = 6 }

instance : DecidableEq MacAddress :=
  fun a b => decidable_of_iff (a.val = b.val) Subtype.ext_iff.symm

/-- The external link-control collaborator (`Netlink`), embedded as the
results it returns for each name-addressed operation. -/
structure Netlink where
  ifaceUpResult : String → Bool
  ifaceDownResult : String → Bool
  getIfaceMACResult : String → MacAddress
  setIfaceMACResult : String → MacAddress → Bool

/-- A record of one call delegated to the `Netlink` collaborator. -/
inductive NetlinkCall where
  | ifaceUp (ifaceName : String)
  | ifaceDown (ifaceName : String)
  | getIfaceMAC (ifaceName : String)
  | setIfaceMAC (ifaceName : String) (address : MacAddress)
deriving DecidableEq

/-- `TapInterface::createTapInterface`. If `mFd >= 0` the device is
already open and the call returns true at once. Otherwise it opens
`/dev/net/tun` (storing the result in `mFd`, failing if negative), then
issues `ioctl(mFd, TUNSETIFF, ...)` requesting the fixed name; on a
nonzero ioctl result it closes the new descriptor, resets `mFd` to `-1`
and fails, and on a zero result it succeeds. -/
def createTapInterface (env : OSEnv) (s : TapState) : Bool × TapState × List OSCall :=
  if s.mFd ≥ 0 then
    (true, s, [])
  else
    let fd := env.openResult
    if fd < 0 then
      (false, { mFd := fd }, [OSCall.openTun fd])
    else
      let ret := env.ioctlResult
      if ret ≠ 0 then
        (false, { mFd := -1 },
          [OSCall.openTun fd, OSCall.ioctlTunSetIff fd TAP_NAME ret,
           OSCall.closeFd fd env.closeResult])
      else
        (true, { mFd := fd },
          [OSCall.openTun fd, OSCall.ioctlTunSetIff fd TAP_NAME ret])

/-- `TapInterface::destroyTapInterface`. If `mFd >= 0` and `close(mFd)`
returns nonzero, the function returns false immediately, before the
assignment `mFd = -1` is reached; otherwise it sets `mFd = -1` and
returns true. -/
def destroyTapInterface (env : OSEnv) (s : TapState) : Bool × TapState × List OSCall :=
  if s.mFd ≥ 0 then
    if env.closeResult ≠ 0 then
      (false, s, [OSCall.closeFd s.mFd env.closeResult])
    else
      (true, { mFd := -1 }, [OSCall.closeFd s.mFd env.closeResult])
  else
    (true, { mFd := -1 }, [])

/-- `TapInterface::isValid`: returns `mFd >= 0`, leaving the state
unchanged. -/
def isValid (s : TapState) : Bool × TapState :=
  (decide (s.mFd ≥ 0), s)

/-- `TapInterface::name`: returns `std::string(TAP_NAME)`, leaving the
state unchanged. -/
def name (s : TapState) : String × TapState :=
  (TAP_NAME, s)

/-- `TapInterface::up`: fails at once if `mFd < 0`, otherwise returns
`netlink->ifaceUp(TAP_NAME)`. -/
def up (netlink : Netlink) (s : TapState) : Bool × TapState × List NetlinkCall :=
  if s.mFd < 0 then
    (false, s, [])
  else
    (netlink.ifaceUpResult TAP_NAME, s, [NetlinkCall.ifaceUp TAP_NAME])

/-- `TapInterface::down`: fails at once if `mFd < 0`, otherwise returns
`netlink->ifaceDown(TAP_NAME)`. -/
def down (netlink : Netlink) (s : TapState) : Bool × TapState × List NetlinkCall :=
  if s.mFd < 0 then
    (false, s, [])
  else
    (netlink.ifaceDownResult TAP_NAME, s, [NetlinkCall.ifaceDown TAP_NAME])

/-- `TapInterface::macAddress`: returns `netlink->getIfaceMAC(TAP_NAME)`
unconditionally. -/
def macAddress (netlink : Netlink) (s : TapState) : MacAddress × TapState × List NetlinkCall :=
  (netlink.getIfaceMACResult TAP_NAME, s, [NetlinkCall.getIfaceMAC TAP_NAME])

/-- `TapInterface::setMACAddress`: returns
`netlink->setIfaceMAC(TAP_NAME, address)` unconditionally. -/
def setMACAddress (netlink : Netlink) (s : TapState) (address : MacAddress) :
    Bool × TapState × List NetlinkCall :=
  (netlink.setIfaceMACResult TAP_NAME address, s, [NetlinkCall.setIfaceMAC TAP_NAME address])

/-- A concrete `Netlink` collaborator with constant results, used to
instantiate universally quantified theorems at a specific input. -/
def sampleNetlink : Netlink where
  ifaceUpResult := fun _ => true
  ifaceDownResult := fun _ => false
  getIfaceMACResult := fun _ => ⟨[0, 1, 2, 3, 4, 5], rfl⟩
  setIfaceMACResult := fun _ _ => true

end TapInterface

namespace TapInterface

/-- C1 counterexample: with descriptor 3 and a failing close (close
returns 1), destroy returns failure, yet afterwards `isValid()` is still
true and the old descriptor value 3 is retained — contradicting the
claim that the handle is marked invalid and the descriptor not
retained. -/
theorem c1_counterexample :
    (destroyTapInterface ⟨-1, 0, 1⟩ ⟨3⟩).1 = false ∧
    (isValid (destroyTapInterface ⟨-1, 0, 1⟩ ⟨3⟩).2.1).1 = true ∧
    (destroyTapInterface ⟨-1, 0, 1⟩ ⟨3⟩).2.1.mFd = 3 := by
  decide

/-- C1 (amended): for every state with a valid descriptor, if the close
performed by destroy reports an error, destroy returns failure and the
handle is left exactly as it was: the descriptor value is retained,
`isValid()` still returns true, and the only OS call performed is the
failing close of the old descriptor. -/
theorem c1_destroy_close_error_keeps_state (env : OSEnv) (s : TapState)
    (hv : s.mFd ≥ 0) (hc : env.closeResult ≠ 0) :
    (destroyTapInterface env s).1 = false ∧
    (destroyTapInterface env s).2.1 = s ∧
    (isValid (destroyTapInterface env s).2.1).1 = true ∧
    (destroyTapInterface env s).2.2 = [OSCall.closeFd s.mFd env.closeResult] := by
  simp [destroyTapInterface, if_pos hv, if_pos hc, isValid, hv]

/-- C1 witness: the amended theorem instantiated at descriptor 3 with a
failing close. -/
theorem c1_witness :
    (destroyTapInterface ⟨-1, 0, 1⟩ ⟨3⟩).1 = false ∧
    (destroyTapInterface ⟨-1, 0, 1⟩ ⟨3⟩).2.1 = ⟨3⟩ ∧
    (isValid (destroyTapInterface ⟨-1, 0, 1⟩ ⟨3⟩).2.1).1 = true ∧
    (destroyTapInterface ⟨-1, 0, 1⟩ ⟨3⟩).2.2 = [OSCall.closeFd 3 1] :=
  c1_destroy_close_error_keeps_state ⟨-1, 0, 1⟩ ⟨3⟩ (by decide) (by decide)

/-- C2: from any invalid state, if the open of `/dev/net/tun` succeeds
but the TUNSETIFF ioctl fails, create returns failure, `isValid()` is
false afterwards, and the OS-call trace shows the newly opened
descriptor being opened, configured and then closed — no descriptor is
leaked. -/
theorem c2_create_ioctl_failure (env : OSEnv) (s : TapState)
    (hinv : s.mFd < 0) (hopen : ¬ env.openResult < 0) (hioctl : env.ioctlResult ≠ 0) :
    (createTapInterface env s).1 = false ∧
    (isValid (createTapInterface env s).2.1).1 = false ∧
    (createTapInterface env s).2.2 =
      [OSCall.openTun env.openResult,
       OSCall.ioctlTunSetIff env.openResult TAP_NAME env.ioctlResult,
       OSCall.closeFd env.openResult env.closeResult] := by
  have hne : ¬ s.mFd ≥ 0 := not_le.mpr hinv
  simp [createTapInterface, if_neg hne, if_neg hopen, if_pos hioctl, isValid]

/-- C2 witness: the theorem instantiated at an invalid handle (descriptor
-1), a successful open returning descriptor 4, and an ioctl failing with
result -1. -/
theorem c2_witness :
    (createTapInterface ⟨4, -1, 0⟩ ⟨-1⟩).1 = false ∧
    (isValid (createTapInterface ⟨4, -1, 0⟩ ⟨-1⟩).2.1).1 = false ∧
    (createTapInterface ⟨4, -1, 0⟩ ⟨-1⟩).2.2 =
      [OSCall.openTun 4, OSCall.ioctlTunSetIff 4 TAP_NAME (-1), OSCall.closeFd 4 0] :=
  c2_create_ioctl_failure ⟨4, -1, 0⟩ ⟨-1⟩ (by decide) (by decide) (by decide)

/-- C3: create is idempotent. From any already-valid state it returns
success with no OS calls and the state unchanged; and after any
successful create, a second create (under any environment) succeeds,
performs no OS calls and leaves the state unchanged, so two successive
creates are equivalent to one. -/
theorem c3_create_idempotent :
    (∀ (env : OSEnv) (s : TapState), s.mFd ≥ 0 →
      createTapInterface env s = (true, s, [])) ∧
    (∀ (env₁ env₂ : OSEnv) (s : TapState),
      (createTapInterface env₁ s).1 = true →
      createTapInterface env₂ (createTapInterface env₁ s).2.1 =
        (true, (createTapInterface env₁ s).2.1, [])) := by
  have hvalid : ∀ (env : OSEnv) (s : TapState), s.mFd ≥ 0 →
      createTapInterface env s = (true, s, []) := by
    intro env s hv
    simp only [createTapInterface, if_pos hv]
  refine ⟨hvalid, ?_⟩
  intro env₁ env₂ s hsucc
  by_cases hv : s.mFd ≥ 0
  · rw [hvalid env₁ s hv]
    exact hvalid env₂ s hv
  · by_cases hopen : env₁.openResult < 0
    · simp only [createTapInterface, if_neg hv, if_pos hopen] at hsucc
      exact Bool.noConfusion hsucc
    · by_cases hioctl : env₁.ioctlResult ≠ 0
      · simp only [createTapInterface, if_neg hv, if_neg hopen, if_pos hioctl] at hsucc
        exact Bool.noConfusion hsucc
      · have h1 : createTapInterface env₁ s =
            (true, { mFd := env₁.openResult },
             [OSCall.openTun env₁.openResult,
              OSCall.ioctlTunSetIff env₁.openResult TAP_NAME env₁.ioctlResult]) := by
          simp only [createTapInterface, if_neg hv, if_neg hopen, if_neg hioctl]
        rw [h1]
        exact hvalid env₂ { mFd := env₁.openResult } (not_lt.mp hopen)

/-- C3 witness: the first conjunct instantiated at descriptor 5, and the
second conjunct at a fresh successful create from descriptor -1. -/
theorem c3_witness :
    createTapInterface ⟨7, 0, 0⟩ ⟨5⟩ = (true, ⟨5⟩, []) ∧
    createTapInterface ⟨9, 0, 0⟩ (createTapInterface ⟨7, 0, 0⟩ ⟨-1⟩).2.1 =
      (true, (createTapInterface ⟨7, 0, 0⟩ ⟨-1⟩).2.1, []) :=
  ⟨c3_create_idempotent.1 ⟨7, 0, 0⟩ ⟨5⟩ (by decide),
   c3_create_idempotent.2 ⟨7, 0, 0⟩ ⟨9, 0, 0⟩ ⟨-1⟩ (by decide)⟩

/-- C4: for every state in which `isValid()` is false and every netlink
collaborator, up and down return failure immediately, with an empty
delegated-call trace and the state unchanged. -/
theorem c4_up_down_invalid (netlink : Netlink) (s : TapState)
    (hinv : (isValid s).1 = false) :
    up netlink s = (false, s, []) ∧ down netlink s = (false, s, []) := by
  have hlt : s.mFd < 0 := by
    simp only [isValid, decide_eq_false_iff_not, not_le] at hinv
    exact hinv
  constructor
  · simp only [up, if_pos hlt]
  · simp only [down, if_pos hlt]

/-- C4 witness: the theorem instantiated at the invalid state with
descriptor -1 and the constant sample collaborator. -/
theorem c4_witness :
    up sampleNetlink ⟨-1⟩ = (false, ⟨-1⟩, []) ∧
    down sampleNetlink ⟨-1⟩ = (false, ⟨-1⟩, []) :=
  c4_up_down_invalid sampleNetlink ⟨-1⟩ (by decide)

/-- C5: for every state in which `isValid()` is true and every netlink
collaborator, up delegates exactly one `ifaceUp` call with exactly the
fixed name and returns its boolean result unchanged; symmetrically for
down with `ifaceDown`. -/
theorem c5_up_down_delegate (netlink : Netlink) (s : TapState)
    (hv : (isValid s).1 = true) :
    up netlink s =
      (netlink.ifaceUpResult TAP_NAME, s, [NetlinkCall.ifaceUp TAP_NAME]) ∧
    down netlink s =
      (netlink.ifaceDownResult TAP_NAME, s, [NetlinkCall.ifaceDown TAP_NAME]) := by
  have hge : ¬ s.mFd < 0 := by
    simp only [isValid, decide_eq_true_eq] at hv
    exact not_lt.mpr hv
  constructor
  · simp only [up, if_neg hge]
  · simp only [down, if_neg hge]

/-- C5 witness: the theorem instantiated at the valid state with
descriptor 3 and the constant sample collaborator. -/
theorem c5_witness :
    up sampleNetlink ⟨3⟩ =
      (sampleNetlink.ifaceUpResult TAP_NAME, ⟨3⟩, [NetlinkCall.ifaceUp TAP_NAME]) ∧
    down sampleNetlink ⟨3⟩ =
      (sampleNetlink.ifaceDownResult TAP_NAME, ⟨3⟩, [NetlinkCall.ifaceDown TAP_NAME]) :=
  c5_up_down_delegate sampleNetlink ⟨3⟩ (by decide)

/-- C6: for every state and environment, if create returns success then
`isValid()` is true and `name()` returns the fixed identifier on the
resulting state; and if destroy returns success then `isValid()` is
false on the resulting state. -/
theorem c6_lifecycle_postconditions (env : OSEnv) (s : TapState) :
    ((createTapInterface env s).1 = true →
      (isValid (createTapInterface env s).2.1).1 = true ∧
      (name (createTapInterface env s).2.1).1 = TAP_NAME) ∧
    ((destroyTapInterface env s).1 = true →
      (isValid (destroyTapInterface env s).2.1).1 = false) := by
  constructor
  · intro hsucc
    refine ⟨?_, rfl⟩
    by_cases hv : s.mFd ≥ 0
    · simp [createTapInterface, if_pos hv, isValid, hv]
    · by_cases hopen : env.openResult < 0
      · simp only [createTapInterface, if_neg hv, if_pos hopen] at hsucc
        exact Bool.noConfusion hsucc
      · by_cases hioctl : env.ioctlResult ≠ 0
        · simp only [createTapInterface, if_neg hv, if_neg hopen, if_pos hioctl] at hsucc
          exact Bool.noConfusion hsucc
        · simp [createTapInterface, if_neg hv, if_neg hopen, if_neg hioctl, isValid,
            not_lt.mp hopen]
  · intro hsucc
    by_cases hv : s.mFd ≥ 0
    · by_cases hc : env.closeResult ≠ 0
      · simp only [destroyTapInterface, if_pos hv, if_pos hc] at hsucc
        exact Bool.noConfusion hsucc
      · simp [destroyTapInterface, if_pos hv, if_neg hc, isValid]
    · simp [destroyTapInterface, if_neg hv, isValid]

/-- C6 witness: a successful create from descriptor -1 (open returns 4,
ioctl returns 0) yields a valid handle named by the fixed identifier,
and a successful destroy from descriptor 7 yields an invalid handle. -/
theorem c6_witness :
    ((isValid (createTapInterface ⟨4, 0, 0⟩ ⟨-1⟩).2.1).1 = true ∧
     (name (createTapInterface ⟨4, 0, 0⟩ ⟨-1⟩).2.1).1 = TAP_NAME) ∧
    (isValid (destroyTapInterface ⟨4, 0, 0⟩ ⟨7⟩).2.1).1 = false :=
  ⟨(c6_lifecycle_postconditions ⟨4, 0, 0⟩ ⟨-1⟩).1 (by decide),
   (c6_lifecycle_postconditions ⟨4, 0, 0⟩ ⟨7⟩).2 (by decide)⟩

/-- C7: for every state in which `isValid()` is false and every
environment, destroy returns success, leaves `isValid()` false, and
performs no OS call (in particular it closes no descriptor). -/
theorem c7_destroy_invalid (env : OSEnv) (s : TapState)
    (hinv : (isValid s).1 = false) :
    (destroyTapInterface env s).1 = true ∧
    (isValid (destroyTapInterface env s).2.1).1 = false ∧
    (destroyTapInterface env s).2.2 = [] := by
  have hlt : ¬ s.mFd ≥ 0 := by
    simp only [isValid, decide_eq_false_iff_not] at hinv
    exact hinv
  simp [destroyTapInterface, if_neg hlt, isValid]

/-- C7 witness: the theorem instantiated at the never-created state with
descriptor -1 and an environment whose close would fail. -/
theorem c7_witness :
    (destroyTapInterface ⟨-1, 0, 1⟩ ⟨-1⟩).1 = true ∧
    (isValid (destroyTapInterface ⟨-1, 0, 1⟩ ⟨-1⟩).2.1).1 = false ∧
    (destroyTapInterface ⟨-1, 0, 1⟩ ⟨-1⟩).2.2 = [] :=
  c7_destroy_invalid ⟨-1, 0, 1⟩ ⟨-1⟩ (by decide)

/-- C8: for every state (valid or not), every netlink collaborator and
every address, macAddress delegates exactly one MAC-read for the fixed
name, returning the collaborator result unchanged, and setMACAddress
delegates exactly one MAC-write of the given address for the fixed name,
returning the collaborator boolean result unchanged; neither applies a
validity guard and neither changes the state. -/
theorem c8_mac_unguarded_delegation (netlink : Netlink) (s : TapState)
    (address : MacAddress) :
    macAddress netlink s =
      (netlink.getIfaceMACResult TAP_NAME, s, [NetlinkCall.getIfaceMAC TAP_NAME]) ∧
    setMACAddress netlink s address =
      (netlink.setIfaceMACResult TAP_NAME address, s,
       [NetlinkCall.setIfaceMAC TAP_NAME address]) :=
  ⟨rfl, rfl⟩

/-- C9: isValid and name are pure queries: both return the state
unchanged, isValid returns exactly the decision of whether the
descriptor is non-negative, and name returns the fixed identifier on
every state, including a never-created one. -/
theorem c9_pure_queries (s : TapState) :
    (isValid s).2 = s ∧
    (name s).2 = s ∧
    (isValid s).1 = decide (s.mFd ≥ 0) ∧
    (name s).1 = TAP_NAME :=
  ⟨rfl, rfl, rfl, rfl⟩

/-- C10: for every state, collaborator and address, the delegating
operations up, down, macAddress and setMACAddress leave the descriptor
field unchanged, so the valid/invalid lifecycle state is preserved
across all link-control operations. -/
theorem c10_delegates_preserve_state (netlink : Netlink) (s : TapState)
    (address : MacAddress) :
    (up netlink s).2.1 = s ∧
    (down netlink s).2.1 = s ∧
    (macAddress netlink s).2.1 = s ∧
    (setMACAddress netlink s address).2.1 = s := by
  refine ⟨?_, ?_, rfl, rfl⟩
  · by_cases hlt : s.mFd < 0
    · simp only [up, if_pos hlt]
    · simp only [up, if_neg hlt]
  · by_cases hlt : s.mFd < 0
    · simp only [down, if_pos hlt]
    · simp only [down, if_neg hlt]

end TapInterface
